import Mathlib

/-!
Shallow embedding of the TLAT license server's license engine
(`src/services/license.js`, schema from `src/db/init.js`), covering the
key generator's persistence path, the domain classifier, and the engine
operations `createLicense`, `activateLicense`, `deactivateLicense` and
`validateLicense` together with JWT token issue/verify.

The SQLite store is modelled as explicit lists of rows with the schema's
uniqueness constraints (`licenses.license_key` UNIQUE,
`activations UNIQUE(license_id, domain)`); a violated constraint is an
`Except.error`, matching better-sqlite3 throwing on `stmt.run`.
Timestamps are integers (`datetime('now')` / epoch seconds); each
operation receives the current time `now` explicitly.
-/

namespace TlatLicense

/-- Is `p` a leading segment of `l`? (character-list core of JS
`String.prototype.startsWith`). -/
def listLeads : List Char → List Char → Bool
  | [], _ => true
  | _ :: _, [] => false
  | a :: as, b :: bs => a == b && listLeads as bs

/-- Does `p` occur as a contiguous segment of `l`? (character-list core of
JS `String.prototype.includes`). -/
def listHas (p : List Char) : List Char → Bool
  | [] => listLeads p []
  | b :: bs => listLeads p (b :: bs) || listHas p bs

/-- JS `s.startsWith(pat)`. -/
def jsStartsWith (s pat : String) : Bool := listLeads pat.toList s.toList

/-- JS `s.endsWith(pat)`. -/
def jsEndsWith (s pat : String) : Bool :=
  listLeads pat.toList.reverse s.toList.reverse

/-- JS `s.includes(pat)`. -/
def jsIncludes (s pat : String) : Bool := listHas pat.toList s.toList

/-- JS `s.toLowerCase()` (ASCII range, as exercised by domain strings). -/
def jsToLower (s : String) : String := String.mk (s.toList.map Char.toLower)

/-- The rule chain of `isDevEnvironment` applied to the already
lower-cased domain `d` (license.js lines 425-448). -/
def isDevCheck (d : String) : Bool :=
  if d == "localhost" || d == "127.0.0.1" ||
     jsStartsWith d "192.168." || jsStartsWith d "10." then true
  else if jsEndsWith d ".local" || jsEndsWith d ".test" ||
          jsEndsWith d ".localhost" || jsEndsWith d ".dev" then true
  else if jsStartsWith d "staging." || jsStartsWith d "dev." ||
          jsStartsWith d "test." || jsStartsWith d "local." then true
  else if jsIncludes d ".staging." || jsIncludes d ".dev." ||
          jsIncludes d ".test." then true
  else if jsIncludes d ".localwp." || jsIncludes d ".lndo." ||
          jsIncludes d ".ddev." then true
  else false

/-- `isDevEnvironment(domain)`: `none` models JS `null`/`undefined`
(falsy, like the empty string), per `if (!domain) return false`. -/
def isDevEnvironment : Option String → Bool
  | none => false
  | some s => if s == "" then false else isDevCheck (jsToLower s)

/-- A row of the `licenses` table. -/
structure License where
  id : Nat
  licenseKey : String
  productId : Option Nat
  email : String
  plan : String
  maxActivations : Nat
  expiresAt : Option Int
  deriving Repr, DecidableEq

/-- A row of the `activations` table. -/
structure Activation where
  id : Nat
  licenseId : Nat
  domain : String
  siteUrl : Option String
  wpVersion : Option String
  pluginVersion : Option String
  activatedAt : Int
  lastHeartbeat : Option Int
  isActive : Bool
  deactivatedAt : Option Int
  deriving Repr, DecidableEq

/-- A row of the `audit_log` table (the `details` JSON blob is omitted;
no claim observes it). -/
structure AuditEntry where
  licenseId : Option Nat
  action : String
  domain : Option String
  ipAddress : Option String
  deriving Repr, DecidableEq

/-- A row of the `products` table (fields read by `validateLicense`). -/
structure Product where
  id : Nat
  slug : String
  name : String
  currentVersion : String
  deriving Repr, DecidableEq

/-- The SQLite database: table contents plus AUTOINCREMENT counters. -/
structure Store where
  products : List Product
  licenses : List License
  activations : List Activation
  auditLog : List AuditEntry
  nextLicenseId : Nat
  nextActivationId : Nat
  deriving Repr, DecidableEq

/-- The `siteInfo` argument of activation/heartbeat calls. -/
structure SiteInfo where
  siteUrl : Option String := none
  wpVersion : Option String := none
  pluginVersion : Option String := none
  ipAddress : Option String := none
  deriving Repr, DecidableEq

/-- Errors thrown by better-sqlite3 on constraint violations. -/
inductive SqlError where
  | uniqueViolation
  deriving Repr, DecidableEq

/-- Injective repackaging of `Except` as a `Sum`, used to decide
equality of operation results. -/
def exceptToSum : Except ε α → Sum ε α
  | .error e => .inl e
  | .ok a => .inr a

instance (ε α : Type) [DecidableEq ε] [DecidableEq α] :
    DecidableEq (Except ε α) := fun x y =>
  decidable_of_iff (exceptToSum x = exceptToSum y)
    (by cases x <;> cases y <;> simp [exceptToSum])

/-- `SELECT * FROM licenses WHERE license_key = ?`. -/
def getLicenseByKey (s : Store) (key : String) : Option License :=
  s.licenses.find? (fun l => l.licenseKey == key)

/-- `SELECT * FROM activations WHERE license_id = ? AND is_active = 1`. -/
def getActiveActivations (s : Store) (licenseId : Nat) : List Activation :=
  s.activations.filter (fun a => a.licenseId == licenseId && a.isActive)

/-- `license.expires_at && new Date(license.expires_at) < new Date()`. -/
def licenseExpired (l : License) (now : Int) : Bool :=
  match l.expiresAt with
  | none => false
  | some t => t < now

/-- `SELECT * FROM products WHERE id = ?`. -/
def getProductById (s : Store) (pid : Nat) : Option Product :=
  s.products.find? (fun p => p.id == pid)

/-- `INSERT INTO audit_log ...` (`logAudit`). -/
def logAudit (s : Store) (licenseId : Option Nat) (action : String)
    (domain : Option String) (ip : Option String) : Store :=
  { s with auditLog :=
      s.auditLog ++ [{ licenseId, action, domain, ipAddress := ip }] }

/-- The claims of a signed JWT issued by `generateToken`
(`jwt.sign({licenseKey, domain, plan, exp}, JWT_SECRET)`). -/
structure TokenClaims where
  licenseKey : String
  domain : String
  plan : String
  exp : Int
  deriving Repr, DecidableEq

/-- `generateToken(license, domain)`: expiry equals the license's own
expiry, or one year from now when perpetual. -/
def generateToken (l : License) (domain : String) (now : Int) : TokenClaims :=
  { licenseKey := l.licenseKey, domain, plan := l.plan,
    exp := match l.expiresAt with
           | some t => t
           | none => now + 365 * 24 * 60 * 60 }

/-- A token presented to `validateLicense`: either carrying a valid
signature over some claims, or malformed / wrongly signed. -/
inductive JwtInput where
  | signed (claims : TokenClaims)
  | malformed
  deriving Repr, DecidableEq

/-- The two failure kinds thrown by `jwt.verify` (jsonwebtoken's
`TokenExpiredError` vs `JsonWebTokenError`). -/
inductive JwtError where
  | tokenExpired
  | malformedToken
  deriving Repr, DecidableEq

/-- `jwt.verify(token, JWT_SECRET)`: a well-signed token whose `exp` is
not in the future throws `TokenExpiredError`; anything unparseable or
wrongly signed throws `JsonWebTokenError`. -/
def jwtVerify (t : JwtInput) (now : Int) : Except JwtError TokenClaims :=
  match t with
  | .malformed => .error .malformedToken
  | .signed c => if c.exp ≤ now then .error .tokenExpired else .ok c

/-- `INSERT INTO licenses ...` under `license_key TEXT UNIQUE NOT NULL`:
throws on a duplicate key, else appends the row and returns
`lastInsertRowid`. -/
def insertLicense (s : Store) (key : String) (productId : Option Nat)
    (email plan : String) (maxActivations : Nat) (expiresAt : Option Int) :
    Except SqlError (Nat × Store) :=
  if s.licenses.any (fun l => l.licenseKey == key) then
    .error .uniqueViolation
  else
    let rowId := s.nextLicenseId
    .ok (rowId, { s with
      licenses := s.licenses ++
        [{ id := rowId, licenseKey := key, productId, email, plan,
           maxActivations, expiresAt }],
      nextLicenseId := rowId + 1 })

/-- The object returned by `createLicense`. -/
structure CreateResult where
  id : Nat
  licenseKey : String
  productId : Option Nat
  email : String
  plan : String
  maxActivations : Nat
  expiresAt : Option Int
  deriving Repr, DecidableEq

/-- `createLicense`: one call to `generateLicenseKey()` (the random draw
is the `generatedKey` argument), a single INSERT with no try/catch and no
retry loop — a uniqueness violation propagates — then the `created`
audit entry. -/
def createLicense (s : Store) (generatedKey : String) (productId : Option Nat)
    (email plan : String) (maxActivations : Nat) (expiresAt : Option Int) :
    Except SqlError (CreateResult × Store) :=
  match insertLicense s generatedKey productId email plan maxActivations expiresAt with
  | .error e => .error e
  | .ok (rowId, s1) =>
    let s2 := logAudit s1 (some rowId) "created" none none
    .ok ({ id := rowId, licenseKey := generatedKey, productId, email, plan,
           maxActivations, expiresAt }, s2)

/-- `INSERT INTO activations ...` under `UNIQUE(license_id, domain)`
(which ranges over ALL rows, deactivated ones included): throws on a
duplicate pair, else appends the row with `last_heartbeat = now` and
returns `lastInsertRowid`. -/
def insertedRow (s : Store) (licenseId : Nat) (domain : String)
    (info : SiteInfo) (now : Int) : Activation :=
  { id := s.nextActivationId, licenseId, domain, siteUrl := info.siteUrl,
    wpVersion := info.wpVersion, pluginVersion := info.pluginVersion,
    activatedAt := now, lastHeartbeat := some now, isActive := true,
    deactivatedAt := none }

/-- The INSERT itself; `insertedRow` above is the row it appends. -/
def insertActivation (s : Store) (licenseId : Nat) (domain : String)
    (info : SiteInfo) (now : Int) : Except SqlError (Nat × Store) :=
  if s.activations.any (fun a => a.licenseId == licenseId && a.domain == domain) then
    .error .uniqueViolation
  else
    .ok (s.nextActivationId, { s with
      activations := s.activations ++ [insertedRow s licenseId domain info now],
      nextActivationId := s.nextActivationId + 1 })

/-- SQL `COALESCE(?, column)`. -/
def coalesce (x y : Option String) : Option String :=
  match x with
  | some v => some v
  | none => y

/-- The `UPDATE activations SET last_heartbeat = ..., wp_version =
COALESCE(...), plugin_version = COALESCE(...) WHERE id = ?` of the
re-activation path. -/
def touchActivationById (s : Store) (actId : Nat) (info : SiteInfo)
    (now : Int) : Store :=
  { s with activations := s.activations.map (fun a =>
      if a.id == actId then
        { a with lastHeartbeat := some now,
                 wpVersion := coalesce info.wpVersion a.wpVersion,
                 pluginVersion := coalesce info.pluginVersion a.pluginVersion }
      else a) }

/-- One entry of the `activations:` array returned with `limit_reached`. -/
structure ActivationView where
  domain : String
  activatedAt : Int
  isDev : Bool
  deriving Repr, DecidableEq

/-- The `activation:` object returned on a fresh successful activation. -/
structure NewActivation where
  id : Nat
  domain : String
  activatedAt : Int
  isDev : Bool
  deriving Repr, DecidableEq

/-- The structured outcomes of `activateLicense`, one constructor per
`return` shape (the string `error` tags invalid_key / expired /
limit_reached become the first three constructors). -/
inductive ActResult where
  | invalidKey
  | expired
  | limitReached (maxActivations : Nat) (activations : List ActivationView)
  | alreadyActivated (activation : Activation) (token : TokenClaims) (isDev : Bool)
  | activated (activation : NewActivation) (token : TokenClaims)
      (remaining : Int) (productionActivations : Nat) (devActivations : Nat)
  deriving Repr, DecidableEq

/-- `activateLicense(licenseKey, domain, siteInfo)` (license.js lines
455-545), step for step; the INSERT may throw `uniqueViolation` when a
soft-deactivated row still holds the `(license_id, domain)` slot. -/
def activateLicense (s : Store) (now : Int) (licenseKey domain : String)
    (info : SiteInfo) : Except SqlError (ActResult × Store) :=
  match getLicenseByKey s licenseKey with
  | none => .ok (.invalidKey, s)
  | some license =>
    if licenseExpired license now then .ok (.expired, s)
    else
      let activations := getActiveActivations s license.id
      match activations.find? (fun a => a.domain == domain) with
      | some existing =>
        let s1 := touchActivationById s existing.id info now
        .ok (.alreadyActivated existing (generateToken license domain now)
               (isDevEnvironment (some domain)), s1)
      | none =>
        let isDev := isDevEnvironment (some domain)
        let productionActivations :=
          activations.filter (fun a => !isDevEnvironment (some a.domain))
        if !isDev && decide (productionActivations.length ≥ license.maxActivations) then
          .ok (.limitReached license.maxActivations
                (activations.map (fun a =>
                  { domain := a.domain, activatedAt := a.activatedAt,
                    isDev := isDevEnvironment (some a.domain) })), s)
        else
          match insertActivation s license.id domain info now with
          | .error e => .error e
          | .ok (rowId, s1) =>
            let s2 := logAudit s1 (some license.id) "activated" (some domain)
                        info.ipAddress
            let newProductionCount :=
              if isDev then productionActivations.length
              else productionActivations.length + 1
            .ok (.activated
                  { id := rowId, domain, activatedAt := now, isDev }
                  (generateToken license domain now)
                  ((license.maxActivations : Int) - newProductionCount)
                  newProductionCount
                  ((activations.filter (fun a =>
                      isDevEnvironment (some a.domain))).length +
                    (if isDev then 1 else 0)), s2)

/-- The structured outcomes of `deactivateLicense`. -/
inductive DeactResult where
  | invalidKey
  | notFound
  | deactivated (remaining : Int)
  deriving Repr, DecidableEq

/-- `deactivateLicense(licenseKey, domain, ipAddress)` (license.js lines
550-579): the UPDATE soft-deactivates every matching active row,
`result.changes` is the matched-row count, and the reported `remaining`
counts ALL still-active activations, dev-classified ones included. -/
def deactivateLicense (s : Store) (now : Int) (licenseKey domain : String)
    (ip : Option String) : DeactResult × Store :=
  match getLicenseByKey s licenseKey with
  | none => (.invalidKey, s)
  | some license =>
    let changes := (s.activations.filter (fun a =>
      a.licenseId == license.id && a.domain == domain && a.isActive)).length
    if changes == 0 then (.notFound, s)
    else
      let s1 := { s with activations := s.activations.map (fun a =>
          if a.licenseId == license.id && a.domain == domain && a.isActive then
            { a with isActive := false, deactivatedAt := some now }
          else a) }
      let s2 := logAudit s1 (some license.id) "deactivated" (some domain) ip
      let remaining := (getActiveActivations s2 license.id).length
      (.deactivated ((license.maxActivations : Int) - remaining), s2)

/-- The structured outcomes of `validateLicense`, one constructor per
`return` shape. -/
inductive ValResult where
  | invalidKey
  | productMismatch (productName requested : String)
  | expired (expiredAt : Option Int)
  | notActivated
  | tokenMismatch
  | invalidToken
  | valid (plan email : String) (expiresAt : Option Int)
      (maxActivations currentActivations : Nat)
      (product : Option (String × String × String))
      (domain : String) (activatedAt : Int)
  deriving Repr, DecidableEq

/-- `validateLicense(licenseKey, domain, token, productSlug)`
(license.js lines 584-662): product-mismatch check, expiry check,
domain-activation check, then optional token verification whose `catch`
collapses every `jwt.verify` failure into the single `invalid_token`
outcome. -/
def validateLicense (s : Store) (now : Int) (licenseKey domain : String)
    (token : Option JwtInput) (productSlug : Option String) : ValResult :=
  match getLicenseByKey s licenseKey with
  | none => .invalidKey
  | some license =>
    let mismatch : Option ValResult :=
      match productSlug, license.productId with
      | some slug, some pid =>
        match getProductById s pid with
        | some product =>
          if product.slug ≠ slug then some (.productMismatch product.name slug)
          else none
        | none => none
      | _, _ => none
    match mismatch with
    | some r => r
    | none =>
      if licenseExpired license now then .expired license.expiresAt
      else
        let activations := getActiveActivations s license.id
        match activations.find? (fun a => a.domain == domain) with
        | none => .notActivated
        | some activation =>
          let tokenFail : Option ValResult :=
            match token with
            | none => none
            | some t =>
              match jwtVerify t now with
              | .error _ => some .invalidToken
              | .ok decoded =>
                if decoded.domain ≠ domain || decoded.licenseKey ≠ licenseKey then
                  some .tokenMismatch
                else none
          match tokenFail with
          | some r => r
          | none =>
            let productInfo : Option (String × String × String) :=
              match license.productId with
              | some pid =>
                match getProductById s pid with
                | some p => some (p.slug, p.name, p.currentVersion)
                | none => none
              | none => none
            .valid license.plan license.email license.expiresAt
              license.maxActivations activations.length productInfo
              activation.domain activation.activatedAt

/-! ## Concrete stores used by counterexamples and witnesses -/

/-- A license with `maxActivations = 1` and no expiry. -/
def demoLicense : License :=
  { id := 1, licenseKey := "TLAT-AAAA-BBBB-CCCC-DDDD", productId := none,
    email := "owner@example.com", plan := "standard", maxActivations := 1,
    expiresAt := none }

/-- A store holding just `demoLicense`, with no activations yet. -/
def demoStore : Store :=
  { products := [], licenses := [demoLicense], activations := [],
    auditLog := [], nextLicenseId := 2, nextActivationId := 1 }

/-- State after activating `example.com` on `demoStore` at time 0
(extracted from the operation; falls back to `demoStore` on error). -/
def c3s1 : Store :=
  match activateLicense demoStore 0 "TLAT-AAAA-BBBB-CCCC-DDDD" "example.com" {} with
  | .ok (_, st) => st
  | .error _ => demoStore

/-- State after then deactivating `example.com` at time 5. -/
def c3s2 : Store :=
  (deactivateLicense c3s1 5 "TLAT-AAAA-BBBB-CCCC-DDDD" "example.com" none).2

/-- A license carrying `expiresAt = 100`, cap 5. -/
def expiredLicense : License :=
  { id := 1, licenseKey := "TLAT-EEEE-EEEE-EEEE-EEEE", productId := none,
    email := "owner@example.com", plan := "standard", maxActivations := 5,
    expiresAt := some 100 }

/-- A store whose only license is expired at any `now > 100`, with an
active activation for `example.com` already present. -/
def expiredStore : Store :=
  { products := [], licenses := [expiredLicense],
    activations :=
      [{ id := 1, licenseId := 1, domain := "example.com", siteUrl := none,
         wpVersion := none, pluginVersion := none, activatedAt := 0,
         lastHeartbeat := some 0, isActive := true, deactivatedAt := none }],
    auditLog := [], nextLicenseId := 2, nextActivationId := 2 }

/-- A store for the C6 scenario: the key the generator just drew is
already taken by an existing license row. -/
def c6Store : Store := demoStore

/-- A well-signed token for (demoLicense, example.com) whose `exp = 10`
lies before the verification time 500. -/
def c7ExpiredToken : JwtInput :=
  .signed { licenseKey := "TLAT-AAAA-BBBB-CCCC-DDDD", domain := "example.com",
            plan := "standard", exp := 10 }

/-- Store with an active activation of `example.com` on `demoLicense`. -/
def activeStore : Store :=
  { products := [], licenses := [demoLicense],
    activations :=
      [{ id := 1, licenseId := 1, domain := "example.com", siteUrl := none,
         wpVersion := none, pluginVersion := none, activatedAt := 0,
         lastHeartbeat := some 0, isActive := true, deactivatedAt := none }],
    auditLog := [], nextLicenseId := 2, nextActivationId := 2 }

/-! ## Claims -/

/-- **C10** — The domain classifier is total: it returns `false`
(production) for a null/undefined (`none`) or empty domain, and its
result depends only on the lower-cased string, so two domains differing
only in letter case classify identically. -/
theorem c10_classifier_total_and_case_insensitive :
    isDevEnvironment none = false ∧
    isDevEnvironment (some "") = false ∧
    ∀ s₁ s₂ : String, jsToLower s₁ = jsToLower s₂ →
      isDevEnvironment (some s₁) = isDevEnvironment (some s₂) := by
  refine ⟨rfl, rfl, ?_⟩
  intro s₁ s₂ h
  have h1 : ∀ t : String, (t = "") ↔ (jsToLower t = "") := by
    intro t
    rw [String.ext_iff, String.ext_iff]
    show t.data = [] ↔ t.data.map Char.toLower = []
    rw [List.map_eq_nil_iff]
  have hempty : (s₁ == "") = (s₂ == "") := by
    rw [Bool.eq_iff_iff]
    simp only [beq_iff_eq]
    rw [h1 s₁, h1 s₂, h]
  simp only [isDevEnvironment, hempty, h]

/-- Witness for C10: a mixed-case dev domain classifies like its
lower-cased form. -/
theorem c10_witness :
    isDevEnvironment (some "FOO.Local") = isDevEnvironment (some "foo.local") :=
  c10_classifier_total_and_case_insensitive.2.2 "FOO.Local" "foo.local" (by decide)

/-- **C4** — For a license whose `expiresAt` is set and in the past, both
`activateLicense` and `validateLicense` fail with `expired` (the expiry
check runs before the already-activated, limit and domain-activation
checks, so this holds for every store state — slots remaining or an
active activation for the domain included) and leave the store
unchanged. -/
theorem c4_expiry_gates_activate_and_validate
    (s : Store) (now : Int) (key d : String) (info : SiteInfo)
    (token : Option JwtInput) (license : License) (t : Int)
    (hlk : getLicenseByKey s key = some license)
    (ht : license.expiresAt = some t) (hlt : t < now) :
    activateLicense s now key d info = .ok (.expired, s) ∧
    validateLicense s now key d token none = .expired (some t) := by
  have he : licenseExpired license now = true := by
    simp [licenseExpired, ht, hlt]
  constructor
  · simp [activateLicense, hlk, he]
  · simp [validateLicense, hlk, he, ht]

/-- Witness for C4: `expiredStore` at `now = 200` has slots remaining
(cap 5, one activation) and an active activation for `example.com`, yet
both operations report `expired`. -/
theorem c4_witness :
    activateLicense expiredStore 200 "TLAT-EEEE-EEEE-EEEE-EEEE" "example.com" {} =
      .ok (.expired, expiredStore) ∧
    validateLicense expiredStore 200 "TLAT-EEEE-EEEE-EEEE-EEEE" "example.com"
      none none = .expired (some 100) :=
  c4_expiry_gates_activate_and_validate expiredStore 200
    "TLAT-EEEE-EEEE-EEEE-EEEE" "example.com" {} none expiredLicense 100
    (by decide) (by decide) (by decide)

/-- **C3** — What the code actually does on the deactivate/reactivate
round trip: activating `example.com` succeeds, deactivating it succeeds
(remaining back to 1), but the second `activateLicense` for the same
domain hits the soft-deactivated row still holding the
`UNIQUE(license_id, domain)` slot and the INSERT throws a uniqueness
violation instead of succeeding as the spec promises. -/
theorem c3_reactivation_after_deactivation_throws :
    (∃ na tok s', activateLicense demoStore 0 "TLAT-AAAA-BBBB-CCCC-DDDD"
        "example.com" {} = .ok (.activated na tok 0 1 0, s')) ∧
    (deactivateLicense c3s1 5 "TLAT-AAAA-BBBB-CCCC-DDDD" "example.com" none).1 =
      .deactivated 1 ∧
    activateLicense c3s2 10 "TLAT-AAAA-BBBB-CCCC-DDDD" "example.com" {} =
      .error .uniqueViolation := by
  refine ⟨⟨{ id := 1, domain := "example.com", activatedAt := 0, isDev := false },
           { licenseKey := "TLAT-AAAA-BBBB-CCCC-DDDD", domain := "example.com",
             plan := "standard", exp := 31536000 }, c3s1, by decide⟩,
          by decide, by decide⟩

/-- Counterexample for **C6**: on a store where the freshly drawn key is
already taken, `createLicense` returns a fatal uniqueness error — it
does not retry key generation and persists nothing, contradicting the
claim that the conflict is retried until a row is persisted. -/
theorem c6_counterexample :
    createLicense c6Store "TLAT-AAAA-BBBB-CCCC-DDDD" none "x@y.z" "pro" 3 none =
      .error .uniqueViolation := by decide

/-- **C6 (amended)** — `createLicense` makes a single attempt with the
single key it drew: if that key already exists it fails fatally with the
store's uniqueness violation (no retry, nothing persisted); only when
the key is fresh does it persist the row and append the `created` audit
entry. -/
theorem c6_create_is_single_attempt (s : Store) (key : String)
    (pid : Option Nat) (email plan : String) (maxA : Nat)
    (expAt : Option Int) :
    (s.licenses.any (fun l => l.licenseKey == key) = true →
      createLicense s key pid email plan maxA expAt = .error .uniqueViolation) ∧
    (s.licenses.any (fun l => l.licenseKey == key) = false →
      createLicense s key pid email plan maxA expAt =
        .ok ({ id := s.nextLicenseId, licenseKey := key, productId := pid,
               email, plan, maxActivations := maxA, expiresAt := expAt },
             { s with
               licenses := s.licenses ++
                 [{ id := s.nextLicenseId, licenseKey := key, productId := pid,
                    email, plan, maxActivations := maxA, expiresAt := expAt }],
               nextLicenseId := s.nextLicenseId + 1,
               auditLog := s.auditLog ++
                 [{ licenseId := some s.nextLicenseId, action := "created",
                    domain := none, ipAddress := none }] })) := by
  constructor <;> intro h <;>
    simp [createLicense, insertLicense, logAudit, h]

/-- Witness for C6 (amended): a fresh key is persisted in one attempt
with its `created` audit entry. -/
theorem c6_witness :
    createLicense c6Store "TLAT-FFFF-GGGG-HHHH-JJJJ" none "x@y.z" "pro" 3 none =
      .ok ({ id := 2, licenseKey := "TLAT-FFFF-GGGG-HHHH-JJJJ",
             productId := none, email := "x@y.z", plan := "pro",
             maxActivations := 3, expiresAt := none },
           { c6Store with
             licenses := c6Store.licenses ++
               [{ id := 2, licenseKey := "TLAT-FFFF-GGGG-HHHH-JJJJ",
                  productId := none, email := "x@y.z", plan := "pro",
                  maxActivations := 3, expiresAt := none }],
             nextLicenseId := 3,
             auditLog := c6Store.auditLog ++
               [{ licenseId := some 2, action := "created", domain := none,
                  ipAddress := none }] }) :=
  ((c6_create_is_single_attempt c6Store "TLAT-FFFF-GGGG-HHHH-JJJJ" none
      "x@y.z" "pro" 3 none).2 (by decide)).trans (by decide)

/-- Counterexample for **C7**: the verification layer does distinguish an
expired token from a malformed one, but `validateLicense` returns the
identical `invalid_token` outcome for both — its failure outcome for an
expired token does not differ from its outcome for a malformed one. -/
theorem c7_counterexample :
    jwtVerify c7ExpiredToken 500 = .error .tokenExpired ∧
    jwtVerify .malformed 500 = .error .malformedToken ∧
    validateLicense activeStore 500 "TLAT-AAAA-BBBB-CCCC-DDDD" "example.com"
      (some c7ExpiredToken) none =
      validateLicense activeStore 500 "TLAT-AAAA-BBBB-CCCC-DDDD" "example.com"
        (some .malformed) none ∧
    validateLicense activeStore 500 "TLAT-AAAA-BBBB-CCCC-DDDD" "example.com"
      (some c7ExpiredToken) none = .invalidToken := by decide

/-- **C7 (amended)** — `jwt.verify` fails distinctly for an expired
well-signed token (`tokenExpired`) versus a malformed/invalidly signed
one (`malformedToken`), but `validateLicense`'s catch-all collapses
every verification failure into the same `invalid_token` outcome, so its
result for any two failing tokens is identical. -/
theorem c7_validate_collapses_token_failures (s : Store) (now : Int)
    (key d : String) (t₁ t₂ : JwtInput) (e₁ e₂ : JwtError)
    (h₁ : jwtVerify t₁ now = .error e₁) (h₂ : jwtVerify t₂ now = .error e₂) :
    JwtError.tokenExpired ≠ JwtError.malformedToken ∧
    (∀ c : TokenClaims, c.exp ≤ now →
      jwtVerify (.signed c) now = .error .tokenExpired) ∧
    jwtVerify .malformed now = .error .malformedToken ∧
    validateLicense s now key d (some t₁) none =
      validateLicense s now key d (some t₂) none := by
  refine ⟨by simp, fun c hc => by simp [jwtVerify, hc], rfl, ?_⟩
  simp only [validateLicense, h₁, h₂]

/-- Witness for C7 (amended), at the concrete expired/malformed pair. -/
theorem c7_witness :
    validateLicense activeStore 500 "TLAT-AAAA-BBBB-CCCC-DDDD" "example.com"
      (some c7ExpiredToken) none =
      validateLicense activeStore 500 "TLAT-AAAA-BBBB-CCCC-DDDD" "example.com"
        (some .malformed) none :=
  (c7_validate_collapses_token_failures activeStore 500 "TLAT-AAAA-BBBB-CCCC-DDDD"
    "example.com" c7ExpiredToken .malformed .tokenExpired .malformedToken
    (by decide) (by decide)).2.2.2

/-- **C1** — With cap `m = maxActivations` and a domain `d` that has no
currently-active activation: if `d` is production-classified and the
currently-active production activations number at least `m`,
`activateLicense` fails with `limit_reached`, returning the full list of
current activations each flagged dev/production, and leaves the store
unchanged; if `d` is dev-classified, `activateLicense` never returns
`limit_reached`, whatever the store holds. -/
theorem c1_limit_reached_only_for_production :
    (∀ (s : Store) (now : Int) (key d : String) (info : SiteInfo)
       (license : License),
      getLicenseByKey s key = some license →
      licenseExpired license now = false →
      (getActiveActivations s license.id).find? (fun a => a.domain == d) = none →
      isDevEnvironment (some d) = false →
      license.maxActivations ≤
        ((getActiveActivations s license.id).filter
          (fun a => !isDevEnvironment (some a.domain))).length →
      activateLicense s now key d info =
        .ok (.limitReached license.maxActivations
              ((getActiveActivations s license.id).map (fun a =>
                { domain := a.domain, activatedAt := a.activatedAt,
                  isDev := isDevEnvironment (some a.domain) })), s)) ∧
    (∀ (s : Store) (now : Int) (key d : String) (info : SiteInfo),
      isDevEnvironment (some d) = true →
      ∀ (m : Nat) (v : List ActivationView) (s' : Store),
        activateLicense s now key d info ≠ .ok (.limitReached m v, s')) := by
  constructor
  · intro s now key d info license hlk hexp hfind hdev hlen
    simp [activateLicense, hlk, hexp, hfind, hdev, hlen]
  · intro s now key d info hdev m v s' heq
    simp only [activateLicense] at heq
    cases hk : getLicenseByKey s key with
    | none => simp [hk] at heq
    | some license =>
      rw [hk] at heq
      cases he : licenseExpired license now with
      | true => simp [he] at heq
      | false =>
        simp only [he] at heq
        cases hf : (getActiveActivations s license.id).find?
            (fun a => a.domain == d) with
        | some ex => simp [hf] at heq
        | none =>
          simp only [hf, hdev] at heq
          cases hins : insertActivation s license.id d info now with
          | error e => simp [hins] at heq
          | ok p => simp [hins] at heq

/-- Witness for C1: `activeStore` (cap 1, one active production
activation `example.com`) rejects a second production domain with
`limit_reached` and the flagged activation list, while a dev domain is
never rejected with `limit_reached`. -/
theorem c1_witness :
    activateLicense activeStore 3 "TLAT-AAAA-BBBB-CCCC-DDDD" "example.org" {} =
      .ok (.limitReached 1
            [{ domain := "example.com", activatedAt := 0, isDev := false }],
           activeStore) ∧
    activateLicense activeStore 3 "TLAT-AAAA-BBBB-CCCC-DDDD" "foo.local" {} ≠
      .ok (.limitReached 1 [], activeStore) :=
  ⟨(c1_limit_reached_only_for_production.1 activeStore 3
      "TLAT-AAAA-BBBB-CCCC-DDDD" "example.org" {} demoLicense (by decide)
      (by decide) (by decide) (by decide) (by decide)).trans (by decide),
   c1_limit_reached_only_for_production.2 activeStore 3
     "TLAT-AAAA-BBBB-CCCC-DDDD" "foo.local" {} (by decide) 1 [] activeStore⟩

/-- **C9** — Whenever `activateLicense` returns one of the failure
outcomes `invalid_key`, `expired` or `limit_reached`, the store it hands
back is exactly the store it was given: no activation row inserted or
modified, no audit entry appended. -/
theorem c9_failure_outcomes_leave_store_unchanged (s : Store) (now : Int)
    (key d : String) (info : SiteInfo) (s' : Store) :
    (activateLicense s now key d info = .ok (.invalidKey, s') → s' = s) ∧
    (activateLicense s now key d info = .ok (.expired, s') → s' = s) ∧
    (∀ (m : Nat) (v : List ActivationView),
      activateLicense s now key d info = .ok (.limitReached m v, s') → s' = s) := by
  have main : ∀ (r : ActResult) (st : Store),
      activateLicense s now key d info = .ok (r, st) →
      r = .invalidKey ∨ r = .expired ∨ (∃ m v, r = .limitReached m v) →
      st = s := by
    intro r st heq hr
    simp only [activateLicense] at heq
    cases hk : getLicenseByKey s key with
    | none =>
      rw [hk] at heq
      simp only [Except.ok.injEq, Prod.mk.injEq] at heq
      exact heq.2.symm
    | some license =>
      rw [hk] at heq
      cases he : licenseExpired license now with
      | true =>
        simp only [he, if_true] at heq
        simp only [Except.ok.injEq, Prod.mk.injEq] at heq
        exact heq.2.symm
      | false =>
        simp only [he] at heq
        simp only [Bool.false_eq_true, if_false] at heq
        cases hf : (getActiveActivations s license.id).find?
            (fun a => a.domain == d) with
        | some ex =>
          simp only [hf, Except.ok.injEq, Prod.mk.injEq] at heq
          rcases hr with h | h | ⟨m, v, h⟩ <;> rw [h] at heq <;>
            simp at heq
        | none =>
          simp only [hf] at heq
          by_cases hc : (!isDevEnvironment (some d) &&
              decide (license.maxActivations ≤
                ((getActiveActivations s license.id).filter
                  (fun a => !isDevEnvironment (some a.domain))).length)) = true
          · simp only [ge_iff_le] at heq
            rw [if_pos hc] at heq
            simp only [Except.ok.injEq, Prod.mk.injEq] at heq
            exact heq.2.symm
          · simp only [ge_iff_le] at heq
            rw [if_neg hc] at heq
            cases hins : insertActivation s license.id d info now with
            | error e => simp [hins] at heq
            | ok p =>
              simp only [hins, Except.ok.injEq, Prod.mk.injEq] at heq
              rcases hr with h | h | ⟨m, v, h⟩ <;> rw [h] at heq <;>
                simp at heq
  exact ⟨fun h => main _ _ h (Or.inl rfl), fun h => main _ _ h (Or.inr (Or.inl rfl)),
         fun m v h => main _ _ h (Or.inr (Or.inr ⟨m, v, rfl⟩))⟩

/-- Witness for C9: the `limit_reached` rejection on `activeStore` hands
back `activeStore` itself. -/
theorem c9_witness :
    activateLicense activeStore 3 "TLAT-AAAA-BBBB-CCCC-DDDD" "example.org" {} =
      .ok (.limitReached 1
            [{ domain := "example.com", activatedAt := 0, isDev := false }],
           activeStore) ∧ activeStore = activeStore :=
  ⟨by decide,
   (c9_failure_outcomes_leave_store_unchanged activeStore 3
      "TLAT-AAAA-BBBB-CCCC-DDDD" "example.org" {} activeStore).2.2 1
     [{ domain := "example.com", activatedAt := 0, isDev := false }]
     (by decide)⟩

/-- **C5** — `deactivateLicense` fails `invalid_key` for an unknown key
and `not_found` when no currently-active row matches the domain (store
unchanged in both cases); on success it soft-deactivates the matching
row(s) with the deactivation timestamp, leaves every other row intact,
appends a `deactivated` audit entry, and reports
`remaining = maxActivations - (count of ALL still-active activations,
dev-classified ones included)`. -/
theorem c5_deactivate_contract :
    (∀ (s : Store) (now : Int) (key d : String) (ip : Option String),
      getLicenseByKey s key = none →
      deactivateLicense s now key d ip = (.invalidKey, s)) ∧
    (∀ (s : Store) (now : Int) (key d : String) (ip : Option String)
       (license : License),
      getLicenseByKey s key = some license →
      s.activations.filter (fun a =>
        a.licenseId == license.id && a.domain == d && a.isActive) = [] →
      deactivateLicense s now key d ip = (.notFound, s)) ∧
    (∀ (s : Store) (now : Int) (key d : String) (ip : Option String)
       (license : License),
      getLicenseByKey s key = some license →
      s.activations.filter (fun a =>
        a.licenseId == license.id && a.domain == d && a.isActive) ≠ [] →
      ∃ s2, deactivateLicense s now key d ip =
          (.deactivated ((license.maxActivations : Int) -
            (getActiveActivations s2 license.id).length), s2) ∧
        s2.activations.filter (fun a =>
          a.licenseId == license.id && a.domain == d && a.isActive) = [] ∧
        s2.auditLog = s.auditLog ++
          [{ licenseId := some license.id, action := "deactivated",
             domain := some d, ipAddress := ip }] ∧
        s2.licenses = s.licenses ∧
        s2.activations.length = s.activations.length ∧
        (∀ a ∈ s.activations,
          (a.licenseId == license.id && a.domain == d && a.isActive) = true →
          ({ a with isActive := false, deactivatedAt := some now } : Activation)
            ∈ s2.activations) ∧
        (∀ a ∈ s.activations,
          (a.licenseId == license.id && a.domain == d && a.isActive) = false →
          a ∈ s2.activations)) := by
  refine ⟨?_, ?_, ?_⟩
  · intro s now key d ip h
    simp [deactivateLicense, h]
  · intro s now key d ip license hlk hnil
    simp [deactivateLicense, hlk, hnil]
  · intro s now key d ip license hlk hne
    have hlen0 : (s.activations.filter (fun a =>
        a.licenseId == license.id && a.domain == d && a.isActive)).length ≠ 0 :=
      fun h0 => hne (List.length_eq_zero.mp h0)
    simp only [deactivateLicense, hlk]
    rw [if_neg (by simp only [beq_iff_eq]; exact hlen0)]
    refine ⟨_, rfl, ?_, rfl, rfl, by simp [logAudit], ?_, ?_⟩
    · rw [List.filter_eq_nil_iff]
      intro b hb
      simp only [logAudit] at hb
      obtain ⟨a, ha, rfl⟩ := List.mem_map.mp hb
      by_cases hpa : (a.licenseId == license.id && a.domain == d && a.isActive) = true
      · simp [hpa]
      · simp [hpa]
    · intro a ha hpa
      simp only [logAudit]
      refine List.mem_map.mpr ⟨a, ha, ?_⟩
      simp [hpa]
    · intro a ha hpa
      simp only [logAudit]
      refine List.mem_map.mpr ⟨a, ha, ?_⟩
      simp [hpa]

/-- Witness for C5: on `demoStore` an unknown key fails `invalid_key`
and a domain with no active row fails `not_found`, both leaving the
store unchanged. -/
theorem c5_witness :
    deactivateLicense demoStore 0 "TLAT-XXXX-YYYY-ZZZZ-WWWW" "example.com"
      none = (.invalidKey, demoStore) ∧
    deactivateLicense demoStore 0 "TLAT-AAAA-BBBB-CCCC-DDDD" "example.com"
      none = (.notFound, demoStore) :=
  ⟨c5_deactivate_contract.1 demoStore 0 "TLAT-XXXX-YYYY-ZZZZ-WWWW"
     "example.com" none (by decide),
   c5_deactivate_contract.2.1 demoStore 0 "TLAT-AAAA-BBBB-CCCC-DDDD"
     "example.com" none demoLicense (by decide) (by decide)⟩

/-- The fields of an activation row other than the heartbeat/version
fields that a re-activation is allowed to refresh. -/
def rowIdentityFields (a : Activation) :
    Nat × Nat × String × Option String × Int × Bool × Option Int :=
  (a.id, a.licenseId, a.domain, a.siteUrl, a.activatedAt, a.isActive,
   a.deactivatedAt)

/-- Helper: the already-activated branch of `activateLicense`, exactly as
the code runs it. -/
theorem activate_existing_branch (s : Store) (now : Int) (key d : String)
    (info : SiteInfo) (license : License) (existing : Activation)
    (hlk : getLicenseByKey s key = some license)
    (hexp : licenseExpired license now = false)
    (hfind : (getActiveActivations s license.id).find?
      (fun a => a.domain == d) = some existing) :
    activateLicense s now key d info =
      .ok (.alreadyActivated existing (generateToken license d now)
             (isDevEnvironment (some d)),
           touchActivationById s existing.id info now) := by
  simp [activateLicense, hlk, hexp, hfind]

/-- **C2** — When a currently-active activation row already exists for
the domain, `activateLicense` succeeds with a freshly issued token,
updates only the heartbeat and version fields of the existing rows,
inserts no new row, appends no audit entry and consumes no limit slot;
consequently a fresh activation followed by a second call for the same
(license, domain) pair ends with exactly one more row than before the
first call — never two new rows. -/
theorem c2_idempotent_reactivation :
    (∀ (s : Store) (now : Int) (key d : String) (info : SiteInfo)
       (license : License) (existing : Activation),
      getLicenseByKey s key = some license →
      licenseExpired license now = false →
      (getActiveActivations s license.id).find?
        (fun a => a.domain == d) = some existing →
      ∃ s', activateLicense s now key d info =
          .ok (.alreadyActivated existing (generateToken license d now)
                 (isDevEnvironment (some d)), s') ∧
        s'.activations.map rowIdentityFields =
          s.activations.map rowIdentityFields ∧
        s'.activations.length = s.activations.length ∧
        s'.auditLog = s.auditLog ∧
        s'.licenses = s.licenses) ∧
    (∀ (s : Store) (now now' : Int) (key d : String) (info info' : SiteInfo)
       (license : License) (na : NewActivation) (tok : TokenClaims)
       (rem : Int) (pc dc : Nat) (s1 : Store),
      getLicenseByKey s key = some license →
      activateLicense s now key d info = .ok (.activated na tok rem pc dc, s1) →
      licenseExpired license now' = false →
      ∃ ex s2, activateLicense s1 now' key d info' =
          .ok (.alreadyActivated ex (generateToken license d now')
                 (isDevEnvironment (some d)), s2) ∧
        s2.activations.length = s1.activations.length ∧
        s1.activations.length = s.activations.length + 1) := by
  constructor
  · intro s now key d info license existing hlk hexp hfind
    refine ⟨touchActivationById s existing.id info now,
      activate_existing_branch s now key d info license existing hlk hexp hfind,
      ?_, by simp [touchActivationById], rfl, rfl⟩
    simp only [touchActivationById, List.map_map]
    apply List.map_congr_left
    intro a ha
    by_cases h : (a.id == existing.id) = true <;>
      simp [h, rowIdentityFields, Function.comp]
  · intro s now now' key d info info' license na tok rem pc dc s1 hlk hact hexp'
    simp only [activateLicense, hlk] at hact
    cases he : licenseExpired license now with
    | true =>
      simp only [he, if_true] at hact
      simp at hact
    | false =>
      simp only [he, Bool.false_eq_true, if_false] at hact
      cases hf : (getActiveActivations s license.id).find?
          (fun a => a.domain == d) with
      | some ex => simp [hf] at hact
      | none =>
        simp only [hf] at hact
        by_cases hc : (!isDevEnvironment (some d) &&
            decide (((getActiveActivations s license.id).filter
              (fun a => !isDevEnvironment (some a.domain))).length ≥
                license.maxActivations)) = true
        · rw [if_pos hc] at hact
          simp at hact
        · rw [if_neg hc] at hact
          cases hins : insertActivation s license.id d info now with
          | error e => simp [hins] at hact
          | ok pr =>
            obtain ⟨rid, st1⟩ := pr
            rw [hins] at hact
            simp only [Except.ok.injEq, Prod.mk.injEq] at hact
            obtain ⟨-, hs1⟩ := hact
            simp only [insertActivation] at hins
            by_cases hdup : (s.activations.any (fun a =>
                a.licenseId == license.id && a.domain == d)) = true
            · rw [if_pos hdup] at hins
              exact absurd hins (by simp)
            · rw [if_neg hdup] at hins
              simp only [Except.ok.injEq, Prod.mk.injEq] at hins
              obtain ⟨-, hst1⟩ := hins
              subst hst1
              subst hs1
              have hlk1 : getLicenseByKey (logAudit { s with
                  activations := s.activations ++
                    [insertedRow s license.id d info now],
                  nextActivationId := s.nextActivationId + 1 }
                  (some license.id) "activated" (some d) info.ipAddress) key =
                  some license := hlk
              have hGA : getActiveActivations (logAudit { s with
                  activations := s.activations ++
                    [insertedRow s license.id d info now],
                  nextActivationId := s.nextActivationId + 1 }
                  (some license.id) "activated" (some d) info.ipAddress)
                  license.id =
                  getActiveActivations s license.id ++
                    [insertedRow s license.id d info now] := by
                show (s.activations ++
                    [insertedRow s license.id d info now]).filter _ = _
                rw [List.filter_append]
                congr 1
                simp [insertedRow]
              have hfind1 : (getActiveActivations (logAudit { s with
                  activations := s.activations ++
                    [insertedRow s license.id d info now],
                  nextActivationId := s.nextActivationId + 1 }
                  (some license.id) "activated" (some d) info.ipAddress)
                  license.id).find? (fun a => a.domain == d) =
                  some (insertedRow s license.id d info now) := by
                rw [hGA, List.find?_append, hf]
                simp [insertedRow]
              refine ⟨insertedRow s license.id d info now, _,
                activate_existing_branch _ now' key d info' license _
                  hlk1 hexp' hfind1, by simp [touchActivationById], ?_⟩
              show (s.activations ++
                  [insertedRow s license.id d info now]).length =
                s.activations.length + 1
              simp

/-- Witness for C2: re-activating `example.com` on `activeStore` returns
`already-activated` success with a fresh token and leaves the row count
and row identities unchanged. -/
theorem c2_witness :
    ∃ s', activateLicense activeStore 7 "TLAT-AAAA-BBBB-CCCC-DDDD"
        "example.com" {} =
        .ok (.alreadyActivated
              { id := 1, licenseId := 1, domain := "example.com",
                siteUrl := none, wpVersion := none, pluginVersion := none,
                activatedAt := 0, lastHeartbeat := some 0, isActive := true,
                deactivatedAt := none }
              (generateToken demoLicense "example.com" 7)
              (isDevEnvironment (some "example.com")), s') ∧
      s'.activations.map rowIdentityFields =
        activeStore.activations.map rowIdentityFields ∧
      s'.activations.length = activeStore.activations.length ∧
      s'.auditLog = activeStore.auditLog ∧
      s'.licenses = activeStore.licenses :=
  c2_idempotent_reactivation.1 activeStore 7 "TLAT-AAAA-BBBB-CCCC-DDDD"
    "example.com" {} demoLicense
    { id := 1, licenseId := 1, domain := "example.com", siteUrl := none,
      wpVersion := none, pluginVersion := none, activatedAt := 0,
      lastHeartbeat := some 0, isActive := true, deactivatedAt := none }
    (by decide) (by decide) (by decide)

/-- Looking a license up is unaffected by inserting activation rows and
audit entries. -/
theorem getLicenseByKey_insert_logAudit (s : Store) (rows : List Activation)
    (n : Nat) (lid : Option Nat) (act : String) (dom ip : Option String)
    (key : String) :
    getLicenseByKey
      (logAudit
        { s with activations := rows, nextActivationId := n } lid act dom ip)
      key = getLicenseByKey s key := rfl

/-- Active-activation lookup on a store whose activation rows were
replaced by `rows`. -/
theorem getActiveActivations_insert_logAudit (s : Store)
    (rows : List Activation) (n : Nat) (lid : Option Nat) (act : String)
    (dom ip : Option String) (licenseId : Nat) :
    getActiveActivations
      (logAudit
        { s with activations := rows, nextActivationId := n } lid act dom ip)
      licenseId =
      rows.filter (fun a => a.licenseId == licenseId && a.isActive) := rfl

/-- **C8** — Each `activateLicense` call is one synchronous better-sqlite3
transaction script on Node's single thread, so two "concurrent" requests
execute in some serial order; for a license with `maxActivations = 1`
and no rows yet, whichever of two distinct production domains runs first
succeeds (remaining 0, one production activation) and the other is
rejected with `limit_reached`, leaving exactly one active activation —
never two successes. The hypotheses are symmetric in the two domains, so
both serial orders are covered. -/
theorem c8_concurrent_cap_never_exceeded (s : Store) (now : Int)
    (key d1 d2 : String) (info1 info2 : SiteInfo) (license : License)
    (hlk : getLicenseByKey s key = some license)
    (hmax : license.maxActivations = 1)
    (hexp : licenseExpired license now = false)
    (hrows : s.activations.filter (fun a => a.licenseId == license.id) = [])
    (hdev1 : isDevEnvironment (some d1) = false)
    (hdev2 : isDevEnvironment (some d2) = false)
    (hne : d1 ≠ d2) :
    ∃ na tok s1,
      activateLicense s now key d1 info1 = .ok (.activated na tok 0 1 0, s1) ∧
      activateLicense s1 now key d2 info2 =
        .ok (.limitReached 1
              [{ domain := d1, activatedAt := now, isDev := false }], s1) ∧
      (getActiveActivations s1 license.id).length = 1 := by
  have hsub : ∀ (q : Activation → Bool), s.activations.filter
      (fun a => a.licenseId == license.id && q a) = [] := by
    intro q
    rw [List.filter_eq_nil_iff]
    intro a ha hpa
    rw [Bool.and_eq_true] at hpa
    have hmem : a ∈ s.activations.filter (fun a => a.licenseId == license.id) :=
      List.mem_filter.mpr ⟨ha, hpa.1⟩
    rw [hrows] at hmem
    exact absurd hmem (List.not_mem_nil a)
  have hGA0 : getActiveActivations s license.id = [] := hsub _
  have hdup1 : s.activations.any
      (fun a => a.licenseId == license.id && a.domain == d1) = false := by
    rw [List.any_eq_false]
    intro a ha hpa
    rw [Bool.and_eq_true] at hpa
    have hmem : a ∈ s.activations.filter (fun a => a.licenseId == license.id) :=
      List.mem_filter.mpr ⟨ha, hpa.1⟩
    rw [hrows] at hmem
    exact absurd hmem (List.not_mem_nil a)
  have hbeq12 : (d1 == d2) = false := beq_eq_false_iff_ne.mpr hne
  refine ⟨{ id := s.nextActivationId, domain := d1, activatedAt := now,
            isDev := false },
    generateToken license d1 now,
    logAudit { s with
        activations := s.activations ++ [insertedRow s license.id d1 info1 now],
        nextActivationId := s.nextActivationId + 1 }
      (some license.id) "activated" (some d1) info1.ipAddress,
    ?_, ?_, ?_⟩
  · simp only [activateLicense, hlk, hexp, Bool.false_eq_true, if_false, hGA0,
      List.find?_nil, hdev1, Bool.not_false, List.filter_nil, List.length_nil,
      hmax, insertActivation, hdup1]
    simp
  · simp only [activateLicense, getLicenseByKey_insert_logAudit, hlk, hexp,
      Bool.false_eq_true, if_false, getActiveActivations_insert_logAudit,
      List.filter_append, hsub, List.nil_append]
    simp [insertedRow, hbeq12, hdev1, hdev2, hmax]
  · rw [getActiveActivations_insert_logAudit, List.filter_append _ _, hsub _]
    simp [insertedRow]

/-- Witness for C8: on `demoStore` (cap 1, empty) the serial pair
(`example.com`, then `example.org`) produces one success and one
`limit_reached`, with one active activation at the end. -/
theorem c8_witness :
    ∃ na tok s1,
      activateLicense demoStore 0 "TLAT-AAAA-BBBB-CCCC-DDDD" "example.com" {} =
        .ok (.activated na tok 0 1 0, s1) ∧
      activateLicense s1 0 "TLAT-AAAA-BBBB-CCCC-DDDD" "example.org" {} =
        .ok (.limitReached 1
              [{ domain := "example.com", activatedAt := 0, isDev := false }],
             s1) ∧
      (getActiveActivations s1 1).length = 1 :=
  c8_concurrent_cap_never_exceeded demoStore 0 "TLAT-AAAA-BBBB-CCCC-DDDD"
    "example.com" "example.org" {} {} demoLicense (by decide) (by decide)
    (by decide) (by decide) (by decide) (by decide) (by decide)

end TlatLicense
